import Mathlib

/-!
Verification of the gtest-tutorial sample suite.

The repository contains two C++ files: `src/samples/main.cpp` (the test runner
entry point) and `src/samples/stl_unittest.cpp` (three test cases comparing two
`std::vector<int>` values with `EXPECT_THAT(x, ::testing::ContainerEq(y))`).
We embed the vectors as `List Int`, element assignment `y[i] = v` as `List.set`,
and the external framework's matcher and runner as definitions modelled from the
specification's description of those capabilities.
-/

namespace GtestTutorial

/-- The sequence length used by every test case in `stl_unittest.cpp`
(`const size_t n = 1000000`). -/
def n : Nat := 1000000

/-- A test case of `stl_unittest.cpp`: a name plus the two locally constructed
vectors `x` and `y` that the case compares. Both are built by zero-initialising
a vector of length `n` and then assigning the divergence indices of `y`. -/
structure TestCase where
  name : String
  x : List Int
  y : List Int

/-- `TEST(StdVectorTest, DiffersInTheBeginning)`: `y[0] = 20; y[1] = 30; y[2] = 40`. -/
def differsInTheBeginning : TestCase where
  name := "DiffersInTheBeginning"
  x := List.replicate n 0
  y := (((List.replicate n 0).set 0 20).set 1 30).set 2 40

/-- `TEST(StdVectorTest, DiffersInTheMiddle)`:
`y[n/2 + 0] = 20; y[n/2 + 1] = 30; y[n/2 + 3] = 40`. -/
def differsInTheMiddle : TestCase where
  name := "DiffersInTheMiddle"
  x := List.replicate n 0
  y := (((List.replicate n 0).set (n / 2 + 0) 20).set (n / 2 + 1) 30).set (n / 2 + 3) 40

/-- `TEST(StdVectorTest, DiffersInTheEnd)`: `y[n - 1] = 20`. -/
def differsInTheEnd : TestCase where
  name := "DiffersInTheEnd"
  x := List.replicate n 0
  y := (List.replicate n 0).set (n - 1) 20

/-- The registered suite, in source order. -/
def suite : List TestCase := [differsInTheBeginning, differsInTheMiddle, differsInTheEnd]

/-- Modelled from the spec: `::testing::ContainerEq` is external framework code, not
part of this repository; the spec's glossary defines the comparison it performs as
ordered container equality, requiring identical length and identical value at every
corresponding index. -/
def containerEq (x y : List Int) : Bool :=
  x.length == y.length && (List.range x.length).all fun i => x.getD i 0 == y.getD i 0

/-- Modelled from the spec: the framework's diff-style failure message for a failed
container-equality assertion reports every index at which the two sequences diverge. -/
def mismatchIndices (x y : List Int) : List Nat :=
  (List.range (max x.length y.length)).filter fun i => x.getD i 0 != y.getD i 0

/-- A case's single assertion `EXPECT_THAT(x, ContainerEq(y))` succeeds exactly when
the two containers are equal. -/
def runCase (c : TestCase) : Bool :=
  containerEq c.x c.y

/-- Modelled from the spec: `RUN_ALL_TESTS` (external framework code) executes every
registered case exactly once, recording one pass/fail result per case; a failing case
does not stop the following cases from running. -/
def runResults (cases : List TestCase) : List Bool :=
  cases.map runCase

/-- Modelled from the spec: the runner's exit status is 0 exactly when every recorded
case result is a pass, and nonzero otherwise. -/
def runAllTests (cases : List TestCase) : Nat :=
  if (runResults cases).all (fun b => b) then 0 else 1

/-- The exit status of `main` in `main.cpp`. -/
def mainExit : Nat := runAllTests suite

/-- The framework's per-process record of case results, used to model executions of a
case against different prior process states. -/
structure RunnerState where
  recorded : List Bool

/-- Executing one case appends its outcome to the process record. -/
def execCase (s : RunnerState) (c : TestCase) : RunnerState :=
  { recorded := s.recorded ++ [runCase c] }

/-! ### Helper lemmas about `getD`, `set` and `replicate` -/

theorem getD_replicate_zero (k i : Nat) : (List.replicate k (0 : Int)).getD i 0 = 0 := by
  rw [List.getD_eq_getElem?_getD, List.getElem?_replicate]
  split <;> rfl

theorem getD_set_self (l : List Int) (i : Nat) (v : Int) (h : i < l.length) :
    (l.set i v).getD i 0 = v := by
  rw [List.getD_eq_getElem?_getD, List.getElem?_set_self h]
  rfl

theorem getD_set_ne (l : List Int) (i j : Nat) (v : Int) (h : i ≠ j) :
    (l.set i v).getD j 0 = l.getD j 0 := by
  rw [List.getD_eq_getElem?_getD, List.getElem?_set_ne h, ← List.getD_eq_getElem?_getD]

/-- Closed form for the elements of `x` of `DiffersInTheBeginning` (and of every
other case, since all three construct the same `x`). -/
theorem beginning_x_getD (i : Nat) : differsInTheBeginning.x.getD i 0 = 0 :=
  getD_replicate_zero n i

theorem middle_x_getD (i : Nat) : differsInTheMiddle.x.getD i 0 = 0 :=
  getD_replicate_zero n i

theorem end_x_getD (i : Nat) : differsInTheEnd.x.getD i 0 = 0 :=
  getD_replicate_zero n i

/-- Any bound below `n` is below the length of any list of length `n`. -/
theorem lt_length_of_eq_n (l : List Int) (hl : l.length = n) (k : Nat)
    (hk : k < 1000000) : k < l.length := by
  rw [hl]
  show k < 1000000
  exact hk

theorem length_replicate_n : (List.replicate n (0 : Int)).length = n :=
  List.length_replicate n 0

theorem length_set_eq (l : List Int) (i : Nat) (v : Int) (hl : l.length = n) :
    (l.set i v).length = n := by
  rw [List.length_set]
  exact hl

/-- Closed form for the elements of `y` of `DiffersInTheBeginning`. -/
theorem beginning_y_getD (i : Nat) :
    differsInTheBeginning.y.getD i 0 =
      if i = 2 then 40 else if i = 1 then 30 else if i = 0 then 20 else 0 := by
  show ((((List.replicate n 0).set 0 20).set 1 30).set 2 40).getD i 0 = _
  by_cases h2 : i = 2
  · subst h2
    rw [getD_set_self _ _ _ (lt_length_of_eq_n _
      (length_set_eq _ _ _ (length_set_eq _ _ _ length_replicate_n)) 2 (by decide))]
    simp
  · rw [getD_set_ne _ _ _ _ (fun h => h2 h.symm), if_neg h2]
    by_cases h1 : i = 1
    · subst h1
      rw [getD_set_self _ _ _ (lt_length_of_eq_n _
        (length_set_eq _ _ _ length_replicate_n) 1 (by decide))]
      simp
    · rw [getD_set_ne _ _ _ _ (fun h => h1 h.symm), if_neg h1]
      by_cases h0 : i = 0
      · subst h0
        rw [getD_set_self _ _ _ (lt_length_of_eq_n _ length_replicate_n 0 (by decide))]
        simp
      · rw [getD_set_ne _ _ _ _ (fun h => h0 h.symm), if_neg h0, getD_replicate_zero]

/-- Closed form for the elements of `y` of `DiffersInTheMiddle`. -/
theorem middle_y_getD (i : Nat) :
    differsInTheMiddle.y.getD i 0 =
      if i = n / 2 + 3 then 40 else if i = n / 2 + 1 then 30 else if i = n / 2 then 20
      else 0 := by
  show ((((List.replicate n 0).set (n / 2 + 0) 20).set (n / 2 + 1) 30).set
      (n / 2 + 3) 40).getD i 0 = _
  by_cases h3 : i = n / 2 + 3
  · subst h3
    rw [getD_set_self _ _ _ (lt_length_of_eq_n _
      (length_set_eq _ _ _ (length_set_eq _ _ _ length_replicate_n)) _ (by decide))]
    simp
  · rw [getD_set_ne _ _ _ _ (fun h => h3 h.symm), if_neg h3]
    by_cases h1 : i = n / 2 + 1
    · subst h1
      rw [getD_set_self _ _ _ (lt_length_of_eq_n _
        (length_set_eq _ _ _ length_replicate_n) _ (by decide))]
      simp
    · rw [getD_set_ne _ _ _ _ (fun h => h1 h.symm), if_neg h1]
      by_cases h0 : i = n / 2
      · subst h0
        rw [show n / 2 + 0 = n / 2 from rfl,
          getD_set_self _ _ _ (lt_length_of_eq_n _ length_replicate_n _ (by decide))]
        simp
      · rw [show n / 2 + 0 = n / 2 from rfl, getD_set_ne _ _ _ _ (fun h => h0 h.symm),
          if_neg h0, getD_replicate_zero]

/-- Closed form for the elements of `y` of `DiffersInTheEnd`. -/
theorem end_y_getD (i : Nat) :
    differsInTheEnd.y.getD i 0 = if i = n - 1 then 20 else 0 := by
  show ((List.replicate n 0).set (n - 1) 20).getD i 0 = _
  by_cases h : i = n - 1
  · subst h
    rw [getD_set_self _ _ _ (lt_length_of_eq_n _ length_replicate_n _ (by decide))]
    simp
  · rw [getD_set_ne _ _ _ _ (fun hh => h hh.symm), if_neg h, getD_replicate_zero]

/-! ### Characterisation of the matcher -/

/-- The modelled matcher succeeds exactly on equal lists. -/
theorem containerEq_eq_true_iff (x y : List Int) : containerEq x y = true ↔ x = y := by
  unfold containerEq
  rw [Bool.and_eq_true, beq_iff_eq, List.all_eq_true]
  constructor
  · intro ⟨hlen, hall⟩
    apply List.ext_getElem hlen
    intro i h1 h2
    have hi := hall i (List.mem_range.mpr h1)
    rw [beq_iff_eq] at hi
    rwa [List.getD_eq_getElem _ _ h1, List.getD_eq_getElem _ _ h2] at hi
  · rintro rfl
    exact ⟨rfl, fun i _ => beq_self_eq_true _⟩

/-- The modelled matcher fails exactly on unequal lists. -/
theorem containerEq_eq_false_iff (x y : List Int) : containerEq x y = false ↔ x ≠ y := by
  rw [Bool.eq_false_iff]
  exact not_congr (containerEq_eq_true_iff x y)

/-- The ordered-container-equality verdict is symmetric. -/
theorem containerEq_symm (x y : List Int) : containerEq x y = containerEq y x := by
  cases hxy : containerEq x y <;> cases hyx : containerEq y x <;> try rfl
  · exact absurd (((containerEq_eq_true_iff y x).mp hyx).symm)
      ((containerEq_eq_false_iff x y).mp hxy)
  · exact absurd (((containerEq_eq_true_iff x y).mp hxy).symm)
      ((containerEq_eq_false_iff y x).mp hyx)

/-- Membership in the reported divergence positions. -/
theorem mem_mismatchIndices (x y : List Int) (i : Nat) :
    i ∈ mismatchIndices x y ↔
      i < max x.length y.length ∧ x.getD i 0 ≠ y.getD i 0 := by
  unfold mismatchIndices
  rw [List.mem_filter, List.mem_range]
  simp only [bne_iff_ne, ne_eq]

/-- Filtering `List.range m` by a test that is false from `k` on equals filtering
`List.range k`. -/
theorem filter_range_eq_of_bound (p : Nat → Bool) (k m : Nat) (hk : k ≤ m)
    (h : ∀ i, k ≤ i → p i = false) :
    (List.range m).filter p = (List.range k).filter p := by
  obtain ⟨d, rfl⟩ := Nat.exists_eq_add_of_le hk
  rw [List.range_add, List.filter_append]
  have hnil : ((List.range d).map (k + ·)).filter p = [] := by
    rw [List.filter_eq_nil_iff]
    intro a ha
    rw [List.mem_map] at ha
    obtain ⟨b, _, rfl⟩ := ha
    rw [h (k + b) (Nat.le_add_right k b)]
    exact Bool.false_ne_true

  rw [hnil, List.append_nil]

/-- Both sequences of every case have length `n`, so the reported range is `n`. -/
theorem max_length_beginning :
    max differsInTheBeginning.x.length differsInTheBeginning.y.length = n := by
  show max (List.replicate n (0 : Int)).length
    ((((List.replicate n 0).set 0 20).set 1 30).set 2 40).length = n
  rw [length_replicate_n, length_set_eq _ _ _ (length_set_eq _ _ _
    (length_set_eq _ _ _ length_replicate_n)), Nat.max_self]

theorem max_length_middle :
    max differsInTheMiddle.x.length differsInTheMiddle.y.length = n := by
  show max (List.replicate n (0 : Int)).length
    ((((List.replicate n 0).set (n / 2 + 0) 20).set (n / 2 + 1) 30).set
      (n / 2 + 3) 40).length = n
  rw [length_replicate_n, length_set_eq _ _ _ (length_set_eq _ _ _
    (length_set_eq _ _ _ length_replicate_n)), Nat.max_self]

theorem max_length_end :
    max differsInTheEnd.x.length differsInTheEnd.y.length = n := by
  show max (List.replicate n (0 : Int)).length
    ((List.replicate n 0).set (n - 1) 20).length = n
  rw [length_replicate_n, length_set_eq _ _ _ length_replicate_n, Nat.max_self]

/-- The divergence positions reported for `DiffersInTheBeginning` are exactly
`[0, 1, 2]`. -/
theorem mismatchIndices_beginning :
    mismatchIndices differsInTheBeginning.x differsInTheBeginning.y = [0, 1, 2] := by
  unfold mismatchIndices
  rw [max_length_beginning]
  rw [filter_range_eq_of_bound _ 3 n (by decide) ?bound]
  case bound =>
    intro i hi
    have h2 : i ≠ 2 := by omega
    have h1 : i ≠ 1 := by omega
    have h0 : i ≠ 0 := by omega
    simp only [beginning_x_getD, beginning_y_getD, if_neg h2, if_neg h1, if_neg h0,
      bne_self_eq_false]
  have e0 : differsInTheBeginning.y.getD 0 0 = 20 := by
    rw [beginning_y_getD]
    norm_num
  have e1 : differsInTheBeginning.y.getD 1 0 = 30 := by
    rw [beginning_y_getD]
    norm_num
  have e2 : differsInTheBeginning.y.getD 2 0 = 40 := by
    rw [beginning_y_getD]
    norm_num
  rw [show List.range 3 = [0, 1, 2] by decide]
  simp only [List.filter_cons, List.filter_nil, beginning_x_getD, e0, e1, e2]
  decide

/-- The divergence positions reported for `DiffersInTheEnd` are exactly `[n - 1]`. -/
theorem mismatchIndices_end :
    mismatchIndices differsInTheEnd.x differsInTheEnd.y = [n - 1] := by
  unfold mismatchIndices
  rw [max_length_end]
  rw [show n = 999999 + 1 from rfl, List.range_add, List.filter_append]
  have hmap : (List.range 1).map (999999 + ·) = [999999] := by
    rw [show List.range 1 = [0] by decide, List.map_cons, List.map_nil]
  rw [hmap]
  have hlast : differsInTheEnd.y.getD 999999 0 = 20 := by
    have e := end_y_getD 999999
    rwa [if_pos (by decide)] at e
  have hnil : (List.range 999999).filter
      (fun i => differsInTheEnd.x.getD i 0 != differsInTheEnd.y.getD i 0) = [] := by
    rw [List.filter_eq_nil_iff]
    intro a ha
    rw [List.mem_range] at ha
    have hne : a ≠ n - 1 := by
      intro h
      rw [h] at ha
      exact absurd ha (by decide)
    simp only [end_x_getD, end_y_getD, if_neg hne, bne_self_eq_false]
    exact Bool.false_ne_true
  have hone : List.filter
      (fun i => differsInTheEnd.x.getD i 0 != differsInTheEnd.y.getD i 0) [999999]
      = [999999] := by
    simp only [List.filter_cons, List.filter_nil, end_x_getD, hlast]
    norm_num
  rw [hnil, hone, List.nil_append]

/-! ### Claims -/

/-- Claim C1: for sequences A (all-zero, length n) and B (length n), the equality
assertion reports "not equal" whenever at least one index in `[0, n)` holds a nonzero
value in B (n ≥ 1); and an assertion failure is recorded exactly when the two compared
sequences differ at one or more positions. -/
theorem c1_assertion_fails_iff_unequal :
    (∀ (m : Nat) (B : List Int), B.length = m → 1 ≤ m →
        (∃ i, i < m ∧ B.getD i 0 ≠ 0) →
      containerEq (List.replicate m 0) B = false)
    ∧ ∀ x y : List Int, containerEq x y = false ↔ x ≠ y := by
  constructor
  · rintro m B hlen hm ⟨i, him, hne⟩
    rw [containerEq_eq_false_iff]
    intro hEq
    apply hne
    have hgot : (List.replicate m (0 : Int)).getD i 0 = B.getD i 0 := by rw [hEq]
    rw [getD_replicate_zero] at hgot
    exact hgot.symm
  · exact containerEq_eq_false_iff

theorem c1_witness :
    containerEq (List.replicate 1 0) [5] = false
    ∧ (containerEq (List.replicate 1 0) [5] = false ↔ List.replicate 1 (0 : Int) ≠ [5]) :=
  ⟨c1_assertion_fails_iff_unequal.1 1 [5] rfl (by decide) ⟨0, by decide, by decide⟩,
   c1_assertion_fails_iff_unequal.2 (List.replicate 1 0) [5]⟩

/-- Claim C2: the runner returns exit status 0 exactly when every registered case's
assertion succeeded; it records exactly one result per registered case, and a failing
case does not stop the cases after it from being executed. -/
theorem c2_runner_contract (cases : List TestCase) :
    (runAllTests cases = 0 ↔ ∀ c ∈ cases, runCase c = true)
    ∧ (runResults cases).length = cases.length
    ∧ ∀ c rest, cases = c :: rest → runResults cases = runCase c :: runResults rest := by
  refine ⟨?_, ?_, ?_⟩
  · have hall : ((runResults cases).all (fun b => b) = true)
        ↔ ∀ c ∈ cases, runCase c = true := by
      unfold runResults
      rw [List.all_eq_true]
      constructor
      · intro h c hc
        exact h (runCase c) (List.mem_map_of_mem _ hc)
      · intro h b hb
        rw [List.mem_map] at hb
        obtain ⟨c, hc, rfl⟩ := hb
        exact h c hc
    unfold runAllTests
    by_cases h : (runResults cases).all (fun b => b) = true
    · rw [if_pos h]
      exact iff_of_true rfl (hall.mp h)
    · rw [if_neg h]
      exact iff_of_false Nat.one_ne_zero (fun hc => h (hall.mpr hc))
  · unfold runResults
    exact List.length_map _ _
  · rintro c rest rfl
    rfl

theorem c2_witness :
    runResults suite
      = runCase differsInTheBeginning :: runResults [differsInTheMiddle, differsInTheEnd] :=
  (c2_runner_contract suite).2.2 differsInTheBeginning [differsInTheMiddle, differsInTheEnd]
    rfl

/-- Claim C3: in every test case, sequence `y` equals sequence `x` at every index except
the case's declared divergence indices, and at each declared divergence index `y` holds
the declared nonzero value (20, 30 or 40). -/
theorem c3_actual_matches_declared_divergences :
    ((∀ i, i ≠ 0 → i ≠ 1 → i ≠ 2 →
        differsInTheBeginning.y.getD i 0 = differsInTheBeginning.x.getD i 0)
      ∧ differsInTheBeginning.y.getD 0 0 = 20
      ∧ differsInTheBeginning.y.getD 1 0 = 30
      ∧ differsInTheBeginning.y.getD 2 0 = 40)
    ∧ ((∀ i, i ≠ n / 2 → i ≠ n / 2 + 1 → i ≠ n / 2 + 3 →
        differsInTheMiddle.y.getD i 0 = differsInTheMiddle.x.getD i 0)
      ∧ differsInTheMiddle.y.getD (n / 2) 0 = 20
      ∧ differsInTheMiddle.y.getD (n / 2 + 1) 0 = 30
      ∧ differsInTheMiddle.y.getD (n / 2 + 3) 0 = 40)
    ∧ ((∀ i, i ≠ n - 1 → differsInTheEnd.y.getD i 0 = differsInTheEnd.x.getD i 0)
      ∧ differsInTheEnd.y.getD (n - 1) 0 = 20) := by
  refine ⟨⟨?_, ?_, ?_, ?_⟩, ⟨?_, ?_, ?_, ?_⟩, ?_, ?_⟩
  · intro i h0 h1 h2
    rw [beginning_y_getD, beginning_x_getD, if_neg h2, if_neg h1, if_neg h0]
  · rw [beginning_y_getD]
    norm_num
  · rw [beginning_y_getD]
    norm_num
  · rw [beginning_y_getD]
    norm_num
  · intro i h0 h1 h3
    rw [middle_y_getD, middle_x_getD, if_neg h3, if_neg h1, if_neg h0]
  · rw [middle_y_getD, if_neg (by omega : ¬ n / 2 = n / 2 + 3),
      if_neg (by omega : ¬ n / 2 = n / 2 + 1), if_pos rfl]
  · rw [middle_y_getD, if_neg (by omega : ¬ n / 2 + 1 = n / 2 + 3), if_pos rfl]
  · rw [middle_y_getD, if_pos rfl]
  · intro i h
    rw [end_y_getD, end_x_getD, if_neg h]
  · rw [end_y_getD, if_pos rfl]

theorem c3_witness :
    differsInTheBeginning.y.getD 10 0 = differsInTheBeginning.x.getD 10 0 :=
  c3_actual_matches_declared_divergences.1.1 10 (by decide) (by decide) (by decide)

/-- Claim C4: in every test case, the expected sequence `x` is the all-zero sequence of
length n; no operation of any case assigns to it, so it is all-zero at the assertion. -/
theorem c4_expected_always_zero :
    ∀ c, c ∈ suite → c.x = List.replicate n 0 ∧ ∀ i, c.x.getD i 0 = 0 := by
  intro c hc
  have hc3 : c = differsInTheBeginning ∨ c = differsInTheMiddle ∨ c = differsInTheEnd := by
    simpa [suite] using hc
  rcases hc3 with rfl | rfl | rfl
  · exact ⟨rfl, beginning_x_getD⟩
  · exact ⟨rfl, middle_x_getD⟩
  · exact ⟨rfl, end_x_getD⟩

theorem c4_witness : differsInTheBeginning.x.getD 5 0 = 0 :=
  (c4_expected_always_zero differsInTheBeginning (List.Mem.head _)).2 5

/-- Claim C5: in the multi-divergence case (`DiffersInTheBeginning`, n = 1,000,000,
`y[0] = 20`, `y[1] = 30`, `y[2] = 40`, all other elements zero) the assertion reports
inequality exactly at indices 0, 1 and 2 — three positions, not just the first — and
the assertion fails. -/
theorem c5_multi_divergence_reported :
    mismatchIndices differsInTheBeginning.x differsInTheBeginning.y = [0, 1, 2]
    ∧ (mismatchIndices differsInTheBeginning.x differsInTheBeginning.y).length = 3
    ∧ containerEq differsInTheBeginning.x differsInTheBeginning.y = false := by
  refine ⟨mismatchIndices_beginning, ?_, ?_⟩
  · rw [mismatchIndices_beginning]
    rfl
  · rw [containerEq_eq_false_iff]
    intro hEq
    have h0 : differsInTheBeginning.x.getD 0 0 = differsInTheBeginning.y.getD 0 0 := by
      rw [hEq]
    rw [beginning_x_getD, beginning_y_getD] at h0
    norm_num at h0

/-- Claim C6 counterexample: in `DiffersInTheBeginning` (the case the claim describes),
the element of `y` at index 1 is 30, so it is false that every element of the actual
sequence other than index 0 is zero. -/
theorem c6_counterexample :
    differsInTheBeginning.y.getD 1 0 = 30 ∧ ¬ differsInTheBeginning.y.getD 1 0 = 0 := by
  have e1 : differsInTheBeginning.y.getD 1 0 = 30 := by
    rw [beginning_y_getD]
    norm_num
  refine ⟨e1, ?_⟩
  rw [e1]
  norm_num

/-- Claim C6 (amended): with n = 1,000,000 and the actual sequence holding 20 at index 0
(as well as 30 and 40 at indices 1 and 2) and zero at every other index, the equality
assertion between the two sequences reports inequality at index 0. -/
theorem c6_beginning_divergence_reported :
    differsInTheBeginning.y.getD 0 0 = 20
    ∧ (∀ i, i ≠ 0 → i ≠ 1 → i ≠ 2 → differsInTheBeginning.y.getD i 0 = 0)
    ∧ 0 ∈ mismatchIndices differsInTheBeginning.x differsInTheBeginning.y := by
  refine ⟨?_, ?_, ?_⟩
  · rw [beginning_y_getD]
    norm_num
  · intro i h0 h1 h2
    rw [beginning_y_getD, if_neg h2, if_neg h1, if_neg h0]
  · rw [mem_mismatchIndices, max_length_beginning]
    refine ⟨by decide, ?_⟩
    rw [beginning_x_getD, beginning_y_getD]
    norm_num

theorem c6_witness : differsInTheBeginning.y.getD 9 0 = 0 :=
  c6_beginning_divergence_reported.2.1 9 (by decide) (by decide) (by decide)

/-- Claim C7: with n = 1,000,000 and the actual sequence holding 20 at index n / 2, the
equality assertion reports inequality at index n / 2. -/
theorem c7_middle_divergence_reported :
    differsInTheMiddle.y.getD (n / 2) 0 = 20
    ∧ n / 2 ∈ mismatchIndices differsInTheMiddle.x differsInTheMiddle.y := by
  have hv : differsInTheMiddle.y.getD (n / 2) 0 = 20 := by
    rw [middle_y_getD, if_neg (by omega : ¬ n / 2 = n / 2 + 3),
      if_neg (by omega : ¬ n / 2 = n / 2 + 1), if_pos rfl]
  refine ⟨hv, ?_⟩
  rw [mem_mismatchIndices, max_length_middle]
  refine ⟨by decide, ?_⟩
  rw [middle_x_getD, hv]
  norm_num

/-- Claim C8: with n = 1,000,000 and the actual sequence holding 20 at index n − 1 and
zero at every other index, the equality assertion reports inequality at index n − 1
(and at no other index). -/
theorem c8_end_divergence_reported :
    differsInTheEnd.y.getD (n - 1) 0 = 20
    ∧ (∀ i, i ≠ n - 1 → differsInTheEnd.y.getD i 0 = 0)
    ∧ mismatchIndices differsInTheEnd.x differsInTheEnd.y = [n - 1] := by
  refine ⟨?_, ?_, mismatchIndices_end⟩
  · rw [end_y_getD, if_pos rfl]
  · intro i h
    rw [end_y_getD, if_neg h]

theorem c8_witness : differsInTheEnd.y.getD 0 0 = 0 :=
  c8_end_divergence_reported.2.1 0 (by decide)

/-- Claim C9: a case's recorded outcome is a deterministic function of the case's own
two sequences: whatever the process state accumulated before the execution — in
particular on a first and on a second run of the same case — the recorded outcome is
the same. -/
theorem c9_case_outcome_deterministic (s₁ s₂ : RunnerState) (c : TestCase) :
    (execCase s₁ c).recorded.getLastD false = containerEq c.x c.y
    ∧ (execCase s₁ c).recorded.getLastD false = (execCase s₂ c).recorded.getLastD false := by
  have h : ∀ s : RunnerState,
      (execCase s c).recorded.getLastD false = containerEq c.x c.y := by
    intro s
    show (s.recorded ++ [runCase c]).getLastD false = containerEq c.x c.y
    rw [List.getLastD_concat]
    rfl
  exact ⟨h s₁, (h s₁).trans (h s₂).symm⟩

/-- Claim C10: every case passes the all-zero sequence as the value under test (first
argument) and the mutated one as the matcher's reference, and for equal-length
sequences the ordered-container-equality verdict is symmetric, so the assertion fails
in one order exactly when it fails in the other. -/
theorem c10_matcher_symmetry :
    (∀ c, c ∈ suite → c.x = List.replicate n 0)
    ∧ ∀ x y : List Int, x.length = y.length →
        (containerEq x y = false ↔ containerEq y x = false) := by
  constructor
  · intro c hc
    have hc3 : c = differsInTheBeginning ∨ c = differsInTheMiddle ∨ c = differsInTheEnd := by
      simpa [suite] using hc
    rcases hc3 with rfl | rfl | rfl <;> rfl
  · intro x y _
    rw [containerEq_symm x y]

theorem c10_witness :
    differsInTheEnd.x = List.replicate n 0
    ∧ (containerEq [1] [2] = false ↔ containerEq [2] [1] = false) :=
  ⟨c10_matcher_symmetry.1 differsInTheEnd
      (List.Mem.tail _ (List.Mem.tail _ (List.Mem.head _))),
   c10_matcher_symmetry.2 [1] [2] rfl⟩

end GtestTutorial
